import Mathlib

/-!
A shallow embedding of the jetty-boot game engine (src/jetty-boot.py).

Python floats are modelled as exact rationals (all constants of the program
are small decimal literals), Python ints as `Int` (or `Nat` where the source
only ever assigns non-negative values and increments), and the global
`random.randint` source as explicitly passed draw values: `pyRandint a b d`
is the value `randint(a, b)` returns when the underlying source yields `d`.
Rendering, fonts and surfaces are outside the model; the pixel-mask pillar
collision test is abstracted as a boolean oracle passed into the tick.
-/

namespace JettyBoot

/-- Screen width in pixels (`SCREEN_WIDTH`). -/
def SCREEN_WIDTH : ℚ := 320

/-- Screen height in pixels (`SCREEN_HEIGHT`). -/
def SCREEN_HEIGHT : ℚ := 640

/-- Horizontal scroll speed (`V_HORIZONTAL`). -/
def V_HORIZONTAL : ℚ := 2

/-- Respawn unwind speed multiplier (`V_HORIZONTAL_RESPAWN_MULTIPLIER`). -/
def V_HORIZONTAL_RESPAWN_MULTIPLIER : ℚ := 4

/-- Downward acceleration in pixels per tick squared (`A_VERTICAL = 0.4`). -/
def A_VERTICAL : ℚ := 2/5

/-- Magnitude of the upward climb impulse (`V_VERTICAL_JUMP = 3.5`). -/
def V_VERTICAL_JUMP : ℚ := 7/2

/-- Configured maximum fall speed (`V_VERTICAL_MAX`). -/
def V_VERTICAL_MAX : ℚ := 10

/-- Slow flyaway ascent speed (`V_VERTICAL_FLYAWAY_SLOW`). -/
def V_VERTICAL_FLYAWAY_SLOW : ℚ := V_HORIZONTAL - 1/2

/-- Normal flyaway ascent speed (`V_VERTICAL_FLYAWAY_NORMAL`). -/
def V_VERTICAL_FLYAWAY_NORMAL : ℚ := V_HORIZONTAL + 1/2

/-- Fast flyaway ascent speed (`V_VERTICAL_FLYAWAY_FAST`). -/
def V_VERTICAL_FLYAWAY_FAST : ℚ := V_HORIZONTAL + 3/2

/-- Vertical respawn return speed (`V_VERTICAL_RESPAWN`). -/
def V_VERTICAL_RESPAWN : ℚ := 3

/-- Maximum player name length (`MAX_NAME_LENGTH`). -/
def MAX_NAME_LENGTH : ℕ := 16

/-- Python `int(q)` on an exact rational: truncation toward zero. -/
def pyInt (q : ℚ) : ℤ := if q < 0 then ⌈q⌉ else ⌊q⌋

/-- Python `random.randint(a, b)` (inclusive on both ends) when the random
source yields the value `d`. -/
def pyRandint (a b : ℤ) (d : ℕ) : ℤ := a + (d : ℤ) % (b - a + 1)

/-- The five game phases of class `GamePhase`. -/
inductive GamePhase where
  | NORMAL
  | INIT
  | FLYAWAY
  | RESPAWN
  | GAME_OVER
deriving DecidableEq, Repr

/-- The three session modes of `JettyBootGame.Mode`. -/
inductive Mode where
  | INIT
  | MAIN_MENU
  | GAME
deriving DecidableEq, Repr

/-- The controlled actor, class `Boot`: position and vertical velocity.
`default_x`/`default_y` are always `48`/`320` in the source constructor and
are modelled as the constants `Boot.default_x`/`Boot.default_y`. -/
structure Boot where
  x : ℚ
  y : ℚ
  v_vertical : ℚ
deriving DecidableEq, Repr

namespace Boot

/-- `Boot.WIDTH`. -/
def WIDTH : ℚ := 40

/-- `Boot.HEIGHT`. -/
def HEIGHT : ℚ := 40

/-- `self.default_x` as set in `Boot.__init__`. -/
def default_x : ℚ := 48

/-- `self.default_y` as set in `Boot.__init__`. -/
def default_y : ℚ := 320

/-- A freshly constructed `Boot` (physics fields of `Boot.__init__`). -/
def init : Boot := { x := default_x, y := default_y, v_vertical := 0 }

/-- `Boot.update(ticks, phase)`: the per-phase motion rule.  The source uses
four non-overlapping `if phase in [...]` blocks, equivalent to this match. -/
def update (b : Boot) (ticks : ℚ) (phase : GamePhase) : Boot :=
  match phase with
  | .INIT => { b with x := min (b.x + V_HORIZONTAL * ticks) (160 - 32) }
  | .NORMAL =>
      { b with y := b.y + b.v_vertical * ticks,
               v_vertical := min (b.v_vertical + ticks * A_VERTICAL) 3 }
  | .RESPAWN =>
      { b with x := max (b.x - V_HORIZONTAL * ticks) default_x,
               y := max (b.y - V_VERTICAL_RESPAWN * ticks) default_y }
  | .FLYAWAY =>
      let effective_y := b.y - 160
      let x' := b.x + V_HORIZONTAL * ticks
      let v :=
        if effective_y = x' then V_VERTICAL_FLYAWAY_NORMAL
        else if effective_y < x' then V_VERTICAL_FLYAWAY_FAST
        else V_VERTICAL_FLYAWAY_SLOW
      { b with x := x', y := max (b.y - v * ticks) 160 }
  | .GAME_OVER => b

/-- `Boot.climb_event(phase)`: unconditionally sets the vertical velocity to
the fixed upward value; the `phase` argument is ignored by the source body. -/
def climb_event (b : Boot) (_phase : GamePhase) : Boot :=
  { b with v_vertical := -V_VERTICAL_JUMP }

end Boot

/-- One obstacle, class `Pillars`: horizontal position plus the randomized
opening shape drawn in `Pillars.__init__`. -/
structure Pillars where
  default_x : ℚ
  x : ℚ
  y : ℚ
  opening_size : ℤ
  opening_center : ℤ
deriving DecidableEq, Repr

namespace Pillars

/-- `Pillars.WIDTH`. -/
def WIDTH : ℚ := 24

/-- `Pillars.SPACING`. -/
def SPACING : ℚ := 120

/-- Lower end of `Pillars.OPENING_SIZE_RANGE`. -/
def OPENING_SIZE_LO : ℤ := 80

/-- Upper end of `Pillars.OPENING_SIZE_RANGE`. -/
def OPENING_SIZE_HI : ℤ := 120

/-- `Pillars.CAP_HEIGHT`. -/
def CAP_HEIGHT : ℚ := 16

/-- `Pillars.__init__(pillar_index)` with the two `random.randint` draws made
explicit (`sizeDraw` feeds the opening-size draw, `jitterDraw` the
opening-center draw). -/
def init (pillar_index : ℕ) (sizeDraw jitterDraw : ℕ) : Pillars :=
  let dx : ℚ := 320 * (7/8) + (pillar_index : ℚ) * (WIDTH + SPACING)
  let opening_size := pyRandint OPENING_SIZE_LO OPENING_SIZE_HI sizeDraw
  let bound := pyInt ((opening_size : ℚ) * 3 / 4)
  let opening_center := 160 + pyRandint (-bound) bound jitterDraw
  { default_x := dx, x := dx, y := 160,
    opening_size := opening_size, opening_center := opening_center }

/-- `bottom_top`: top edge of the bottom segment. -/
def bottom_top (p : Pillars) : ℚ := (p.opening_center : ℚ) + (p.opening_size : ℚ) / 2

/-- `bottom_full_height`: full height of the bottom segment. -/
def bottom_full_height (p : Pillars) : ℚ := 320 - p.bottom_top

/-- Height handed to `colored_rectangle` for the bottom base block
(`bottom_full_height - Pillars.CAP_HEIGHT`). -/
def bottom_base_height (p : Pillars) : ℚ := p.bottom_full_height - CAP_HEIGHT

/-- `top_bottom`/`top_full_height`: full height of the top segment. -/
def top_full_height (p : Pillars) : ℚ := (p.opening_center : ℚ) - (p.opening_size : ℚ) / 2

/-- Height handed to `colored_rectangle` for the top base block
(`top_full_height - Pillars.CAP_HEIGHT`). -/
def top_base_height (p : Pillars) : ℚ := p.top_full_height - CAP_HEIGHT

/-- `Pillars.update(phase, ticks)`. -/
def update (p : Pillars) (phase : GamePhase) (ticks : ℚ) : Pillars :=
  match phase with
  | .NORMAL | .FLYAWAY => { p with x := p.x - V_HORIZONTAL * ticks }
  | .RESPAWN =>
      { p with
        x := min p.default_x (p.x + V_HORIZONTAL * V_HORIZONTAL_RESPAWN_MULTIPLIER * ticks) }
  | _ => p

end Pillars

/-- Python `str.split("\n")` on a character list: the list of newline-free
chunks; a string with no newline yields exactly one chunk. -/
def pySplitNL : List Char → List (List Char)
  | [] => [[]]
  | c :: rest =>
      let r := pySplitNL rest
      if c = '\n' then [] :: r
      else
        match r with
        | h :: t => (c :: h) :: t
        | [] => [[c]]

/-- A Python whitespace character as stripped by `int(str)`. -/
def isPySpace (c : Char) : Bool :=
  c = ' ' || c = '\t' || c = '\n' || c = '\r' || c = '\x0b' || c = '\x0c'

/-- Python `str.strip()` on a character list. -/
def pyStrip (cs : List Char) : List Char :=
  ((cs.dropWhile isPySpace).reverse.dropWhile isPySpace).reverse

/-- Python `int(str)`: optional surrounding whitespace, optional sign, then a
non-empty digit string; `none` models `ValueError`. -/
def pyParseInt (cs : List Char) : Option ℤ :=
  let u := pyStrip cs
  let neg : Bool :=
    match u with
    | '-' :: _ => true
    | _ => false
  let digits :=
    match u with
    | '-' :: rest => rest
    | '+' :: rest => rest
    | _ => u
  if digits.length > 0 && digits.all Char.isDigit then
    let v : ℤ := digits.foldl (fun a c => a * 10 + ((c.toNat - 48 : ℕ) : ℤ)) 0
    some (if neg then -v else v)
  else
    none

/-- The persisted-record load performed in `JettyBootGame.__init__`
(lines 287-294): `none` input models a missing `jb.txt`.  On success it
returns `(init_name_text, game_high_score)`.  `jb_str.split("\n")[1]` raises
an uncaught `IndexError` when the content has no second line; only
`ValueError` from `int(...)` is caught (leaving the score at `0`). -/
def loadGameRecord (file : Option String) : Except String (String × ℤ) :=
  match file with
  | none => Except.ok ("", 0)
  | some content =>
      match pySplitNL content.data with
      | a :: b :: _ =>
          match pyParseInt b with
          | some n => Except.ok (String.mk a, n)
          | none => Except.ok (String.mk a, 0)
      | _ => Except.error "IndexError"

/-- The discrete per-tick input events consumed by `tick_game`'s event loop:
quit/escape, the pause keys (`K_PAUSE`/`K_p`), the climb keys
(`K_UP`/`K_RETURN`/`K_SPACE`/`K_e`) as KEYUP events, and any other event. -/
inductive GEvent where
  | quitEsc
  | pauseKey
  | climbKey
  | other
deriving DecidableEq, Repr

/-- The mutable session state of class `JettyBootGame` relevant to the game
core (rendering handles, fonts and textures are omitted). -/
structure GameState where
  running : Bool
  mode : Mode
  game_boot : Boot
  game_pillars : List Pillars
  game_level : ℕ
  game_paused : Bool
  game_ticks_in_level : ℕ
  game_ticks_in_phase : ℕ
  game_phase : GamePhase
  game_lives : ℤ
  game_total_offset : ℚ
  game_last_score_value : ℤ
  game_score : ℤ
  game_high_score : ℤ
deriving DecidableEq, Repr

/-- `JettyBootGame.game_level_pillar_count`. -/
def game_level_pillar_count (s : GameState) : ℕ := 1 + s.game_level

/-- `JettyBootGame.game_change_phase`. -/
def game_change_phase (phase : GamePhase) (s : GameState) : GameState :=
  { s with game_phase := phase, game_ticks_in_phase := 0 }

/-- `JettyBootGame.game_generate_game_objects` with the per-pillar random
draws passed explicitly (`ds i`/`dj i` feed pillar `i`'s two draws). -/
def game_generate_game_objects (ds dj : ℕ → ℕ) (s : GameState) : GameState :=
  { s with
    game_boot := Boot.init,
    game_pillars :=
      (List.range (game_level_pillar_count s)).map fun i => Pillars.init i (ds i) (dj i) }

/-- `JettyBootGame.game_handle_life`. -/
def game_handle_life (s : GameState) : GameState :=
  let s := { s with game_lives := s.game_lives - 1 }
  if s.game_lives = 0 then
    game_change_phase GamePhase.GAME_OVER s
  else
    let s := game_change_phase GamePhase.RESPAWN s
    { s with game_boot := { s.game_boot with v_vertical := 0 } }

/-- `JettyBootGame.game_handle_new_level`. -/
def game_handle_new_level (ds dj : ℕ → ℕ) (s : GameState) : GameState :=
  let s := { s with game_level := s.game_level + 1,
                    game_ticks_in_level := 0,
                    game_total_offset := 0 }
  game_change_phase GamePhase.INIT (game_generate_game_objects ds dj s)

/-- `JettyBootGame.game_handle_high_score` (the file write it may trigger is
an external side effect and not part of the state). -/
def game_handle_high_score (s : GameState) : GameState :=
  if s.game_score > s.game_high_score then
    { s with game_high_score := s.game_score }
  else s

/-- `JettyBootGame.mode_change`. -/
def mode_change (ds dj : ℕ → ℕ) (m : Mode) (s : GameState) : GameState :=
  let s := { s with mode := m }
  if m = Mode.GAME then
    game_generate_game_objects ds dj
      { s with game_level := 1, game_ticks_in_level := 0, game_ticks_in_phase := 0,
               game_phase := GamePhase.INIT, game_lives := 3, game_total_offset := 0,
               game_last_score_value := 0, game_score := 0 }
  else s

/-- The event loop at the head of `JettyBootGame.tick_game` (lines 423-433).
The second component is `true` when the loop executed the `return`
(quit/escape), aborting the rest of the tick. -/
def processGameEvents (ds dj : ℕ → ℕ) : List GEvent → GameState → GameState × Bool
  | [], s => (s, false)
  | e :: rest, s =>
      match e with
      | .quitEsc => ({ s with running := false }, true)
      | .pauseKey => processGameEvents ds dj rest { s with game_paused := !s.game_paused }
      | .climbKey =>
          if s.game_phase = GamePhase.NORMAL then
            processGameEvents ds dj rest
              { s with game_boot := s.game_boot.climb_event s.game_phase }
          else if s.game_phase = GamePhase.GAME_OVER then
            processGameEvents ds dj rest (mode_change ds dj Mode.MAIN_MENU s)
          else processGameEvents ds dj rest s
      | .other => processGameEvents ds dj rest s

/-- The polled `pygame.key.get_pressed()` climb check (lines 435-437):
when any climb key is currently held, `climb_event` fires regardless of
phase or pause state. -/
def applyHeldClimb (pressed : Bool) (s : GameState) : GameState :=
  if pressed then { s with game_boot := s.game_boot.climb_event s.game_phase } else s

/-- Whether the actor breaches the play-area boundaries
(`160 >= boot.y or boot.y >= 480 - Boot.HEIGHT/2`, line 451). -/
def boundary_breach (b : Boot) : Prop := 160 ≥ b.y ∨ b.y ≥ 480 - Boot.HEIGHT / 2

instance (b : Boot) : Decidable (boundary_breach b) := by
  unfold boundary_breach; infer_instance

/-- The per-tick scroll-offset step (lines 441-444): accumulate during
NORMAL/FLYAWAY, unwind (clamped at zero) during RESPAWN, else unchanged. -/
def offsetStep (s : GameState) : ℚ :=
  if s.game_phase = GamePhase.NORMAL ∨ s.game_phase = GamePhase.FLYAWAY then
    s.game_total_offset + V_HORIZONTAL
  else if s.game_phase = GamePhase.RESPAWN then
    max (s.game_total_offset - V_HORIZONTAL * V_HORIZONTAL_RESPAWN_MULTIPLIER) 0
  else s.game_total_offset

/-- The movement part of the unpaused block (lines 441-448): offset step,
`boot.update`, and each `pillar.update`. -/
def physicsMove (s : GameState) : GameState :=
  { s with game_total_offset := offsetStep s,
           game_boot := s.game_boot.update 1 s.game_phase,
           game_pillars := s.game_pillars.map fun p => p.update s.game_phase 1 }

/-- The unpaused physics-and-collision block of `tick_game` (lines 440-457):
`physicsMove`, then the collision and boundary check against the updated
actor.  `pillar_collision` is the oracle abstracting the pixel-mask test
`any(pillar.collides_with(boot) ...)`.  The second component is `true` when
the block executed an early `return` (life lost or new level). -/
def tickPhysics (pillar_collision : Bool) (ds dj : ℕ → ℕ) (s : GameState) :
    GameState × Bool :=
  let s' := physicsMove s
  if pillar_collision = true ∨ boundary_breach s'.game_boot then
    if s'.game_phase = GamePhase.NORMAL then (game_handle_life s', true)
    else if s'.game_phase = GamePhase.FLYAWAY then (game_handle_new_level ds dj s', true)
    else (s', false)
  else (s', false)

/-- The horizontal offset of the first pillar as used by the progress
formula, `320 * (7 / 8) - (160 - Boot.WIDTH)` (line 463). -/
def first_pillars_offset : ℚ := 320 * (7/8) - (160 - Boot.WIDTH)

/-- The pillar pitch `Pillars.WIDTH + Pillars.SPACING` (line 464). -/
def pillars_offset : ℚ := Pillars.WIDTH + Pillars.SPACING

/-- The continuous progress value `float_score` (lines 465-466) as a function
of the accumulated scroll offset. -/
def floatScore (offset : ℚ) : ℚ := (offset - first_pillars_offset) / pillars_offset + 1

/-- The floored-and-clamped per-level progress `level_score` (line 467) of a
state.  The source computes it once per tick from the current offset and
pillar count; the stages below read it through this function from states
whose offset and level those stages have not modified. -/
def levelScoreOf (s : GameState) : ℤ :=
  min (pyInt (floatScore s.game_total_offset)) ((game_level_pillar_count s : ℤ))

/-- Score bookkeeping (lines 468-470): when the floored progress exceeds the
last scored value, increment the score and run the high-score check. -/
def scoreStage (s : GameState) : GameState :=
  if s.game_last_score_value < levelScoreOf s then
    game_handle_high_score { s with game_score := s.game_score + 1 }
  else s

/-- Line 471: record the current `level_score` as the last scored value. -/
def lastScoreStage (s : GameState) : GameState :=
  { s with game_last_score_value := levelScoreOf s }

/-- Lines 472-473: the flyaway-threshold check. -/
def flyawayStage (s : GameState) : GameState :=
  if floatScore s.game_total_offset ≥ (game_level_pillar_count s : ℚ) + 1/10 then
    game_change_phase GamePhase.FLYAWAY s
  else s

/-- Lines 475-476: the INIT entry-slide timeout. -/
def initStage (s : GameState) : GameState :=
  if s.game_phase = GamePhase.INIT ∧ 60 ≤ s.game_ticks_in_phase then
    game_change_phase GamePhase.NORMAL s
  else s

/-- Lines 478-479: the respawn-complete check (offset fully unwound and the
actor back at its default vertical position). -/
def respawnStage (s : GameState) : GameState :=
  if s.game_phase = GamePhase.RESPAWN ∧ s.game_total_offset = 0 ∧
      s.game_boot.y = Boot.default_y then
    game_change_phase GamePhase.INIT s
  else s

/-- Lines 503-505: the pause-gated tick counters. -/
def counterStage (s : GameState) : GameState :=
  if s.game_paused then s
  else { s with game_ticks_in_phase := s.game_ticks_in_phase + 1,
                game_ticks_in_level := s.game_ticks_in_level + 1 }

/-- The scoring and phase-transition tail of `tick_game` (lines 463-505), in
source order.  This part runs even while the game is paused. -/
def tickScoreAndPhase (s : GameState) : GameState :=
  counterStage (respawnStage (initStage (flyawayStage (lastScoreStage (scoreStage s)))))

/-- `JettyBootGame.tick_game`: one full game-mode tick.  `events` is the
per-tick event batch, `pressed` the polled climb-held state,
`pillar_collision` the pixel-mask collision oracle, and `ds`/`dj` the random
draws consumed if a new level is generated this tick. -/
def tick_game (ds dj : ℕ → ℕ) (events : List GEvent) (pressed pillar_collision : Bool)
    (s : GameState) : GameState :=
  let r := processGameEvents ds dj events s
  if r.2 = true then r.1
  else
    let s2 := applyHeldClimb pressed r.1
    if s2.game_paused then tickScoreAndPhase s2
    else
      let pr := tickPhysics pillar_collision ds dj s2
      if pr.2 = true then pr.1 else tickScoreAndPhase pr.1

/-- The session state right after `JettyBootGame.__init__` and
`mode_change(GAME)`: fresh level-1 defaults (with an empty pillar list as a
neutral placeholder used by concrete test states). -/
def baseState : GameState :=
  { running := true, mode := Mode.GAME, game_boot := Boot.init, game_pillars := [],
    game_level := 1, game_paused := false, game_ticks_in_level := 0,
    game_ticks_in_phase := 0, game_phase := GamePhase.INIT, game_lives := 3,
    game_total_offset := 0, game_last_score_value := 0, game_score := 0,
    game_high_score := 0 }

/-! ### Helper lemmas: the effect of each tick stage on each state field -/

theorem processGameEvents_nil (ds dj : ℕ → ℕ) (s : GameState) :
    processGameEvents ds dj [] s = (s, false) := rfl

theorem applyHeldClimb_false (s : GameState) : applyHeldClimb false s = s := rfl

theorem applyHeldClimb_true (s : GameState) :
    applyHeldClimb true s = { s with game_boot := s.game_boot.climb_event s.game_phase } :=
  rfl

theorem scoreStage_proj (s : GameState) :
    (scoreStage s).game_boot = s.game_boot ∧
    (scoreStage s).game_pillars = s.game_pillars ∧
    (scoreStage s).game_total_offset = s.game_total_offset ∧
    (scoreStage s).game_level = s.game_level ∧
    (scoreStage s).game_lives = s.game_lives ∧
    (scoreStage s).game_phase = s.game_phase ∧
    (scoreStage s).game_paused = s.game_paused ∧
    (scoreStage s).game_ticks_in_phase = s.game_ticks_in_phase ∧
    (scoreStage s).game_ticks_in_level = s.game_ticks_in_level ∧
    (scoreStage s).game_last_score_value = s.game_last_score_value := by
  unfold scoreStage game_handle_high_score
  split_ifs <;> simp_all

theorem scoreStage_score (s : GameState) :
    (scoreStage s).game_score =
      (if s.game_last_score_value < levelScoreOf s then s.game_score + 1
       else s.game_score) := by
  unfold scoreStage game_handle_high_score
  split_ifs <;> simp_all

theorem lastScoreStage_proj (s : GameState) :
    (lastScoreStage s).game_boot = s.game_boot ∧
    (lastScoreStage s).game_pillars = s.game_pillars ∧
    (lastScoreStage s).game_total_offset = s.game_total_offset ∧
    (lastScoreStage s).game_level = s.game_level ∧
    (lastScoreStage s).game_lives = s.game_lives ∧
    (lastScoreStage s).game_phase = s.game_phase ∧
    (lastScoreStage s).game_paused = s.game_paused ∧
    (lastScoreStage s).game_ticks_in_phase = s.game_ticks_in_phase ∧
    (lastScoreStage s).game_ticks_in_level = s.game_ticks_in_level ∧
    (lastScoreStage s).game_score = s.game_score := by
  unfold lastScoreStage; simp

theorem flyawayStage_proj (s : GameState) :
    (flyawayStage s).game_boot = s.game_boot ∧
    (flyawayStage s).game_pillars = s.game_pillars ∧
    (flyawayStage s).game_total_offset = s.game_total_offset ∧
    (flyawayStage s).game_level = s.game_level ∧
    (flyawayStage s).game_lives = s.game_lives ∧
    (flyawayStage s).game_paused = s.game_paused ∧
    (flyawayStage s).game_ticks_in_level = s.game_ticks_in_level ∧
    (flyawayStage s).game_score = s.game_score ∧
    (flyawayStage s).game_last_score_value = s.game_last_score_value := by
  unfold flyawayStage game_change_phase
  split_ifs <;> simp_all

theorem flyawayStage_phase (s : GameState) :
    (flyawayStage s).game_phase =
      (if floatScore s.game_total_offset ≥ (game_level_pillar_count s : ℚ) + 1/10 then
        GamePhase.FLYAWAY else s.game_phase) := by
  unfold flyawayStage game_change_phase
  split_ifs <;> simp_all

theorem flyawayStage_ticks_in_phase (s : GameState) :
    (flyawayStage s).game_ticks_in_phase =
      (if floatScore s.game_total_offset ≥ (game_level_pillar_count s : ℚ) + 1/10 then
        0 else s.game_ticks_in_phase) := by
  unfold flyawayStage game_change_phase
  split_ifs <;> simp_all

theorem initStage_proj (s : GameState) :
    (initStage s).game_boot = s.game_boot ∧
    (initStage s).game_pillars = s.game_pillars ∧
    (initStage s).game_total_offset = s.game_total_offset ∧
    (initStage s).game_level = s.game_level ∧
    (initStage s).game_lives = s.game_lives ∧
    (initStage s).game_paused = s.game_paused ∧
    (initStage s).game_ticks_in_level = s.game_ticks_in_level ∧
    (initStage s).game_score = s.game_score ∧
    (initStage s).game_last_score_value = s.game_last_score_value := by
  unfold initStage game_change_phase
  split_ifs <;> simp_all

theorem initStage_phase (s : GameState) :
    (initStage s).game_phase =
      (if s.game_phase = GamePhase.INIT ∧ 60 ≤ s.game_ticks_in_phase then
        GamePhase.NORMAL else s.game_phase) := by
  unfold initStage game_change_phase
  split_ifs <;> simp_all

theorem respawnStage_proj (s : GameState) :
    (respawnStage s).game_boot = s.game_boot ∧
    (respawnStage s).game_pillars = s.game_pillars ∧
    (respawnStage s).game_total_offset = s.game_total_offset ∧
    (respawnStage s).game_level = s.game_level ∧
    (respawnStage s).game_lives = s.game_lives ∧
    (respawnStage s).game_paused = s.game_paused ∧
    (respawnStage s).game_ticks_in_level = s.game_ticks_in_level ∧
    (respawnStage s).game_score = s.game_score ∧
    (respawnStage s).game_last_score_value = s.game_last_score_value := by
  unfold respawnStage game_change_phase
  split_ifs <;> simp_all

theorem respawnStage_phase (s : GameState) :
    (respawnStage s).game_phase =
      (if s.game_phase = GamePhase.RESPAWN ∧ s.game_total_offset = 0 ∧
          s.game_boot.y = Boot.default_y then
        GamePhase.INIT else s.game_phase) := by
  unfold respawnStage game_change_phase
  split_ifs <;> simp_all

theorem counterStage_proj (s : GameState) :
    (counterStage s).game_boot = s.game_boot ∧
    (counterStage s).game_pillars = s.game_pillars ∧
    (counterStage s).game_total_offset = s.game_total_offset ∧
    (counterStage s).game_level = s.game_level ∧
    (counterStage s).game_lives = s.game_lives ∧
    (counterStage s).game_phase = s.game_phase ∧
    (counterStage s).game_paused = s.game_paused ∧
    (counterStage s).game_score = s.game_score ∧
    (counterStage s).game_last_score_value = s.game_last_score_value := by
  unfold counterStage
  split_ifs <;> simp_all

theorem counterStage_ticks_in_level (s : GameState) :
    (counterStage s).game_ticks_in_level =
      (if s.game_paused then s.game_ticks_in_level else s.game_ticks_in_level + 1) := by
  unfold counterStage
  split_ifs <;> simp_all

/-- Fields of the state that the whole score-and-transition tail never
touches. -/
theorem tickScoreAndPhase_proj (s : GameState) :
    (tickScoreAndPhase s).game_boot = s.game_boot ∧
    (tickScoreAndPhase s).game_pillars = s.game_pillars ∧
    (tickScoreAndPhase s).game_total_offset = s.game_total_offset ∧
    (tickScoreAndPhase s).game_level = s.game_level ∧
    (tickScoreAndPhase s).game_lives = s.game_lives ∧
    (tickScoreAndPhase s).game_paused = s.game_paused := by
  unfold tickScoreAndPhase
  obtain ⟨a1, a2, a3, a4, a5, a6, a7, a8, a9, a10⟩ := scoreStage_proj s
  obtain ⟨b1, b2, b3, b4, b5, b6, b7, b8, b9, b10⟩ := lastScoreStage_proj (scoreStage s)
  obtain ⟨c1, c2, c3, c4, c5, c6, c7, c8, c9⟩ :=
    flyawayStage_proj (lastScoreStage (scoreStage s))
  obtain ⟨d1, d2, d3, d4, d5, d6, d7, d8, d9⟩ :=
    initStage_proj (flyawayStage (lastScoreStage (scoreStage s)))
  obtain ⟨e1, e2, e3, e4, e5, e6, e7, e8, e9⟩ :=
    respawnStage_proj (initStage (flyawayStage (lastScoreStage (scoreStage s))))
  obtain ⟨f1, f2, f3, f4, f5, f6, f7, f8, f9⟩ :=
    counterStage_proj (respawnStage (initStage (flyawayStage (lastScoreStage (scoreStage s)))))
  refine ⟨?_, ?_, ?_, ?_, ?_, ?_⟩ <;> simp_all

/-- The score after the tail: it increments exactly when the floored
progress exceeds the last scored value. -/
theorem tickScoreAndPhase_score (s : GameState) :
    (tickScoreAndPhase s).game_score =
      (if s.game_last_score_value < levelScoreOf s then s.game_score + 1
       else s.game_score) := by
  unfold tickScoreAndPhase
  obtain ⟨b1, b2, b3, b4, b5, b6, b7, b8, b9, b10⟩ := lastScoreStage_proj (scoreStage s)
  obtain ⟨c1, c2, c3, c4, c5, c6, c7, c8, c9⟩ :=
    flyawayStage_proj (lastScoreStage (scoreStage s))
  obtain ⟨d1, d2, d3, d4, d5, d6, d7, d8, d9⟩ :=
    initStage_proj (flyawayStage (lastScoreStage (scoreStage s)))
  obtain ⟨e1, e2, e3, e4, e5, e6, e7, e8, e9⟩ :=
    respawnStage_proj (initStage (flyawayStage (lastScoreStage (scoreStage s))))
  obtain ⟨f1, f2, f3, f4, f5, f6, f7, f8, f9⟩ :=
    counterStage_proj (respawnStage (initStage (flyawayStage (lastScoreStage (scoreStage s)))))
  rw [f8, e8, d8, c8, b10, scoreStage_score]

/-- The per-level tick counter after the tail: frozen while paused. -/
theorem tickScoreAndPhase_ticks_in_level (s : GameState) :
    (tickScoreAndPhase s).game_ticks_in_level =
      (if s.game_paused then s.game_ticks_in_level else s.game_ticks_in_level + 1) := by
  unfold tickScoreAndPhase
  obtain ⟨a1, a2, a3, a4, a5, a6, a7, a8, a9, a10⟩ := scoreStage_proj s
  obtain ⟨b1, b2, b3, b4, b5, b6, b7, b8, b9, b10⟩ := lastScoreStage_proj (scoreStage s)
  obtain ⟨c1, c2, c3, c4, c5, c6, c7, c8, c9⟩ :=
    flyawayStage_proj (lastScoreStage (scoreStage s))
  obtain ⟨d1, d2, d3, d4, d5, d6, d7, d8, d9⟩ :=
    initStage_proj (flyawayStage (lastScoreStage (scoreStage s)))
  obtain ⟨e1, e2, e3, e4, e5, e6, e7, e8, e9⟩ :=
    respawnStage_proj (initStage (flyawayStage (lastScoreStage (scoreStage s))))
  rw [counterStage_ticks_in_level]
  simp_all

/-- The phase after the tail, as a function of the pre-tail state: the three
transition checks in source order. -/
theorem tickScoreAndPhase_phase (s : GameState) :
    (tickScoreAndPhase s).game_phase =
      (if floatScore s.game_total_offset ≥ (game_level_pillar_count s : ℚ) + 1/10 then
        GamePhase.FLYAWAY
      else if s.game_phase = GamePhase.INIT ∧ 60 ≤ s.game_ticks_in_phase then
        GamePhase.NORMAL
      else if s.game_phase = GamePhase.RESPAWN ∧ s.game_total_offset = 0 ∧
          s.game_boot.y = Boot.default_y then
        GamePhase.INIT
      else s.game_phase) := by
  unfold tickScoreAndPhase
  obtain ⟨a1, a2, a3, a4, a5, a6, a7, a8, a9, a10⟩ := scoreStage_proj s
  obtain ⟨b1, b2, b3, b4, b5, b6, b7, b8, b9, b10⟩ := lastScoreStage_proj (scoreStage s)
  obtain ⟨c1, c2, c3, c4, c5, c6, c7, c8, c9⟩ :=
    flyawayStage_proj (lastScoreStage (scoreStage s))
  obtain ⟨d1, d2, d3, d4, d5, d6, d7, d8, d9⟩ :=
    initStage_proj (flyawayStage (lastScoreStage (scoreStage s)))
  obtain ⟨f1, f2, f3, f4, f5, f6, f7, f8, f9⟩ :=
    counterStage_proj (respawnStage (initStage (flyawayStage (lastScoreStage (scoreStage s)))))
  rw [f6, respawnStage_phase, initStage_phase, flyawayStage_phase,
    flyawayStage_ticks_in_phase]
  have hlev : (lastScoreStage (scoreStage s)).game_level = s.game_level := by simp_all
  have hoff : (lastScoreStage (scoreStage s)).game_total_offset = s.game_total_offset := by
    simp_all
  have hphase : (lastScoreStage (scoreStage s)).game_phase = s.game_phase := by simp_all
  have htip : (lastScoreStage (scoreStage s)).game_ticks_in_phase =
      s.game_ticks_in_phase := by simp_all
  simp only [game_level_pillar_count, hlev, hoff, hphase, htip, d1, d3, c1, c3, b1, b3,
    a1, a3]
  split_ifs <;> simp_all

theorem physicsMove_proj (s : GameState) :
    (physicsMove s).game_phase = s.game_phase ∧
    (physicsMove s).game_paused = s.game_paused ∧
    (physicsMove s).game_lives = s.game_lives ∧
    (physicsMove s).game_level = s.game_level ∧
    (physicsMove s).game_score = s.game_score ∧
    (physicsMove s).game_last_score_value = s.game_last_score_value ∧
    (physicsMove s).game_ticks_in_phase = s.game_ticks_in_phase ∧
    (physicsMove s).game_ticks_in_level = s.game_ticks_in_level ∧
    (physicsMove s).game_boot = s.game_boot.update 1 s.game_phase ∧
    (physicsMove s).game_total_offset = offsetStep s ∧
    (physicsMove s).game_pillars = s.game_pillars.map (fun p => p.update s.game_phase 1) :=
  ⟨rfl, rfl, rfl, rfl, rfl, rfl, rfl, rfl, rfl, rfl, rfl⟩

theorem offsetStep_normal (s : GameState) (h : s.game_phase = GamePhase.NORMAL) :
    offsetStep s = s.game_total_offset + 2 := by
  unfold offsetStep V_HORIZONTAL; rw [h]; norm_num

theorem offsetStep_flyaway (s : GameState) (h : s.game_phase = GamePhase.FLYAWAY) :
    offsetStep s = s.game_total_offset + 2 := by
  unfold offsetStep V_HORIZONTAL; rw [h]; norm_num

theorem offsetStep_respawn (s : GameState) (h : s.game_phase = GamePhase.RESPAWN) :
    offsetStep s = max (s.game_total_offset - 8) 0 := by
  unfold offsetStep V_HORIZONTAL V_HORIZONTAL_RESPAWN_MULTIPLIER; rw [h]
  split_ifs <;> simp_all <;> norm_num

theorem offsetStep_paused_like (s : GameState) (h1 : s.game_phase ≠ GamePhase.NORMAL)
    (h2 : s.game_phase ≠ GamePhase.FLYAWAY) (h3 : s.game_phase ≠ GamePhase.RESPAWN) :
    offsetStep s = s.game_total_offset := by
  unfold offsetStep; simp [h1, h2, h3]

theorem Boot.update_normal (b : Boot) (t : ℚ) :
    b.update t GamePhase.NORMAL =
      { b with y := b.y + b.v_vertical * t, v_vertical := min (b.v_vertical + t * (2/5)) 3 } := by
  unfold Boot.update A_VERTICAL; rfl

theorem Boot.update_respawn (b : Boot) (t : ℚ) :
    b.update t GamePhase.RESPAWN =
      { b with x := max (b.x - 2 * t) 48, y := max (b.y - 3 * t) 320 } := by
  unfold Boot.update V_HORIZONTAL V_VERTICAL_RESPAWN Boot.default_x Boot.default_y; rfl

theorem Boot.update_keeps_v (b : Boot) (t : ℚ) (phase : GamePhase)
    (h : phase ≠ GamePhase.NORMAL) : (b.update t phase).v_vertical = b.v_vertical := by
  unfold Boot.update
  cases phase <;> simp_all

theorem tickPhysics_other (pc : Bool) (ds dj : ℕ → ℕ) (s : GameState)
    (h1 : s.game_phase ≠ GamePhase.NORMAL) (h2 : s.game_phase ≠ GamePhase.FLYAWAY) :
    tickPhysics pc ds dj s = (physicsMove s, false) := by
  have hp : (physicsMove s).game_phase = s.game_phase := rfl
  simp only [tickPhysics]
  split_ifs <;> simp_all

theorem tickPhysics_nobreach (ds dj : ℕ → ℕ) (s : GameState)
    (hb : ¬ boundary_breach (physicsMove s).game_boot) :
    tickPhysics false ds dj s = (physicsMove s, false) := by
  simp only [tickPhysics]
  split_ifs <;> simp_all

theorem tickPhysics_normal_breach (pc : Bool) (ds dj : ℕ → ℕ) (s : GameState)
    (h : s.game_phase = GamePhase.NORMAL)
    (hbr : pc = true ∨ boundary_breach (physicsMove s).game_boot) :
    tickPhysics pc ds dj s = (game_handle_life (physicsMove s), true) := by
  have hp : (physicsMove s).game_phase = s.game_phase := rfl
  simp only [tickPhysics]
  split_ifs <;> simp_all

theorem tickPhysics_flyaway_breach (pc : Bool) (ds dj : ℕ → ℕ) (s : GameState)
    (h : s.game_phase = GamePhase.FLYAWAY)
    (hbr : pc = true ∨ boundary_breach (physicsMove s).game_boot) :
    tickPhysics pc ds dj s = (game_handle_new_level ds dj (physicsMove s), true) := by
  have hp : (physicsMove s).game_phase = s.game_phase := rfl
  simp only [tickPhysics]
  split_ifs <;> simp_all

theorem game_handle_life_eq (s : GameState) :
    game_handle_life s =
      (if s.game_lives - 1 = 0 then
        { s with game_lives := s.game_lives - 1, game_phase := GamePhase.GAME_OVER,
                 game_ticks_in_phase := 0 }
      else
        { s with game_lives := s.game_lives - 1, game_phase := GamePhase.RESPAWN,
                 game_ticks_in_phase := 0,
                 game_boot := { s.game_boot with v_vertical := 0 } }) := by
  unfold game_handle_life game_change_phase
  split_ifs <;> simp_all

theorem game_handle_new_level_eq (ds dj : ℕ → ℕ) (s : GameState) :
    game_handle_new_level ds dj s =
      { s with game_level := s.game_level + 1, game_ticks_in_level := 0,
               game_total_offset := 0, game_boot := Boot.init,
               game_pillars := (List.range (1 + (s.game_level + 1))).map
                 (fun i => Pillars.init i (ds i) (dj i)),
               game_phase := GamePhase.INIT, game_ticks_in_phase := 0 } := by
  unfold game_handle_new_level game_generate_game_objects game_change_phase
    game_level_pillar_count
  rfl

theorem tick_game_paused (ds dj : ℕ → ℕ) (pressed pc : Bool) (s : GameState)
    (h : s.game_paused = true) :
    tick_game ds dj [] pressed pc s = tickScoreAndPhase (applyHeldClimb pressed s) := by
  have hp : (applyHeldClimb pressed s).game_paused = true := by
    unfold applyHeldClimb; split <;> simpa using h
  simp [tick_game, processGameEvents, hp]

theorem tick_game_unpaused (ds dj : ℕ → ℕ) (pc : Bool) (s : GameState)
    (h : s.game_paused = false) :
    tick_game ds dj [] false pc s =
      (if (tickPhysics pc ds dj s).2 = true then (tickPhysics pc ds dj s).1
       else tickScoreAndPhase (tickPhysics pc ds dj s).1) := by
  simp [tick_game, processGameEvents, applyHeldClimb, h]

/-! ### Helper lemmas: random draws and truncation -/

theorem pyRandint_mem (a b : ℤ) (d : ℕ) (h : a ≤ b) :
    a ≤ pyRandint a b d ∧ pyRandint a b d ≤ b := by
  unfold pyRandint
  have hne : b - a + 1 ≠ 0 := by omega
  have h1 : 0 ≤ (d : ℤ) % (b - a + 1) := Int.emod_nonneg _ hne
  have h2 : (d : ℤ) % (b - a + 1) < b - a + 1 := Int.emod_lt_of_pos _ (by omega)
  omega

theorem pyInt_eq_floor (q : ℚ) (h : 0 ≤ q) : pyInt q = ⌊q⌋ := by
  unfold pyInt
  rw [if_neg (not_lt.mpr h)]

/-! ### Claim theorems -/

/-- C9: for every slot index and every pair of values from the random
source, the generated obstacle's opening size lies in the configured
`[80, 120]` range inclusive, and its opening center is the screen vertical
center `160` plus a jitter of magnitude at most `0.75 *` the opening size. -/
theorem pillar_opening_within_bounds (i sd jd : ℕ) :
    Pillars.OPENING_SIZE_LO ≤ (Pillars.init i sd jd).opening_size ∧
    (Pillars.init i sd jd).opening_size ≤ Pillars.OPENING_SIZE_HI ∧
    |((Pillars.init i sd jd).opening_center : ℚ) - 160| ≤
      3/4 * ((Pillars.init i sd jd).opening_size : ℚ) := by
  have hsz := pyRandint_mem Pillars.OPENING_SIZE_LO Pillars.OPENING_SIZE_HI sd
    (by norm_num [Pillars.OPENING_SIZE_LO, Pillars.OPENING_SIZE_HI])
  set os := pyRandint Pillars.OPENING_SIZE_LO Pillars.OPENING_SIZE_HI sd with hos
  have hos0 : (0 : ℤ) ≤ os := by
    have := hsz.1
    simp only [Pillars.OPENING_SIZE_LO] at this
    omega
  have hq0 : (0 : ℚ) ≤ (os : ℚ) * 3 / 4 := by positivity
  set bound := pyInt ((os : ℚ) * 3 / 4) with hbound
  have hbfloor : bound = ⌊(os : ℚ) * 3 / 4⌋ := pyInt_eq_floor _ hq0
  have hbound0 : 0 ≤ bound := by
    rw [hbfloor]
    exact Int.le_floor.mpr (by push_cast; positivity)
  have hjit := pyRandint_mem (-bound) bound jd (by omega)
  set jit := pyRandint (-bound) bound jd with hjit_def
  have hinit : Pillars.init i sd jd =
      { default_x := 320 * (7/8) + (i : ℚ) * (Pillars.WIDTH + Pillars.SPACING),
        x := 320 * (7/8) + (i : ℚ) * (Pillars.WIDTH + Pillars.SPACING),
        y := 160, opening_size := os, opening_center := 160 + jit } := rfl
  rw [hinit]
  refine ⟨hsz.1, hsz.2, ?_⟩
  have habs : |(jit : ℚ)| ≤ (bound : ℚ) := by
    rw [abs_le]
    constructor
    · exact_mod_cast hjit.1
    · exact_mod_cast hjit.2
  have hble : (bound : ℚ) ≤ 3/4 * (os : ℚ) := by
    rw [hbfloor]
    calc ((⌊(os : ℚ) * 3 / 4⌋ : ℤ) : ℚ) ≤ (os : ℚ) * 3 / 4 := Int.floor_le _
    _ = 3/4 * (os : ℚ) := by ring
  have : ((160 + jit : ℤ) : ℚ) - 160 = (jit : ℚ) := by push_cast; ring
  rw [this]
  exact le_trans habs hble

/-- C10: the NORMAL-phase actor update advances the vertical position by the
pre-update velocity times the tick count, then clamps the new velocity, so
the post-update velocity never exceeds the configured maximum fall speed. -/
theorem normal_update_velocity_clamped (b : Boot) (t : ℚ) :
    (b.update t GamePhase.NORMAL).v_vertical ≤ V_VERTICAL_MAX ∧
    (b.update t GamePhase.NORMAL).y = b.y + b.v_vertical * t ∧
    (b.update t GamePhase.NORMAL).v_vertical = min (b.v_vertical + t * A_VERTICAL) 3 := by
  refine ⟨?_, rfl, rfl⟩
  have h1 : (b.update t GamePhase.NORMAL).v_vertical =
      min (b.v_vertical + t * A_VERTICAL) 3 := rfl
  rw [h1]
  have h2 : min (b.v_vertical + t * A_VERTICAL) 3 ≤ 3 := min_le_right _ _
  have h3 : (3 : ℚ) ≤ V_VERTICAL_MAX := by norm_num [V_VERTICAL_MAX]
  exact le_trans h2 h3

/-- C3 (code bug): an opening size of `120` with maximal upward jitter `+90`
(slot index `0`, draws `40` and `180`) places the opening center at `250`,
so the bottom segment's base rectangle is created with height
`320 - 310 - 16 = -6 < 0`, contradicting the claim that segment heights are
never negative and that generation has no error condition. -/
theorem pillar_negative_base_height :
    (Pillars.init 0 40 180).opening_size = 120 ∧
    (Pillars.init 0 40 180).opening_center = 250 ∧
    (Pillars.init 0 40 180).bottom_base_height = -6 ∧
    (Pillars.init 0 40 180).bottom_base_height < 0 := by
  have hinit : Pillars.init 0 40 180 =
      { default_x := 280, x := 280, y := 160, opening_size := 120,
        opening_center := 250 } := by
    unfold Pillars.init pyRandint pyInt Pillars.OPENING_SIZE_LO Pillars.OPENING_SIZE_HI
      Pillars.WIDTH Pillars.SPACING
    norm_num
  rw [hinit]
  refine ⟨rfl, rfl, ?_, ?_⟩ <;>
    norm_num [Pillars.bottom_base_height, Pillars.bottom_full_height, Pillars.bottom_top,
      Pillars.CAP_HEIGHT]

/-- C5 (code bug): a persisted file whose content has no second line (for
example the single line `player1`) makes `jb_str.split("\n")[1]` raise an
uncaught `IndexError` during startup, contradicting the claim that loading
never raises; the missing-file path does default to name `""` and score
`0`, and a present-but-malformed integer is kept at `0` non-fatally. -/
theorem load_record_missing_second_line_raises :
    loadGameRecord (some "player1") = Except.error "IndexError" ∧
    loadGameRecord none = Except.ok ("", 0) ∧
    loadGameRecord (some "player1\nabc") = Except.ok ("player1", 0) ∧
    loadGameRecord (some "player1\n42") = Except.ok ("player1", 42) := by
  exact ⟨rfl, rfl, rfl, rfl⟩

/-- Zero draw function used by concrete test states. -/
def dzero : ℕ → ℕ := fun _ => 0

/-- A paused FLYAWAY-phase state with the actor at rest, used to exercise
the polled climb-held path outside NORMAL phase. -/
def heldClimbState : GameState :=
  { baseState with game_phase := GamePhase.FLYAWAY, game_paused := true }

/-- C1 (counterexample): on a tick in FLYAWAY phase with a climb key held,
the polled climb path fires `climb_event` anyway and changes the vertical
velocity from `0` to `-V_VERTICAL_JUMP`, so a climb-impulse request does not
leave the velocity unchanged outside NORMAL phase. -/
theorem held_climb_changes_velocity_outside_normal :
    heldClimbState.game_phase ≠ GamePhase.NORMAL ∧
    heldClimbState.game_boot.v_vertical = 0 ∧
    (tick_game dzero dzero [] true false heldClimbState).game_boot.v_vertical =
      -V_VERTICAL_JUMP := by
  refine ⟨by decide, rfl, ?_⟩
  rw [tick_game_paused dzero dzero true false heldClimbState rfl]
  rw [(tickScoreAndPhase_proj (applyHeldClimb true heldClimbState)).1]
  rfl

/-- C1 (amended): a discrete climb key-up event sets the vertical velocity
to `-V_VERTICAL_JUMP` in NORMAL phase and leaves it unchanged in every other
phase, but the polled climb-held path fires the impulse in every phase,
because `climb_event` ignores its phase argument. -/
theorem climb_impulse_paths (ds dj : ℕ → ℕ) (s : GameState) :
    ((processGameEvents ds dj [GEvent.climbKey] s).1.game_boot.v_vertical =
      if s.game_phase = GamePhase.NORMAL then -V_VERTICAL_JUMP
      else s.game_boot.v_vertical) ∧
    (applyHeldClimb true s).game_boot.v_vertical = -V_VERTICAL_JUMP ∧
    (s.game_boot.climb_event s.game_phase).v_vertical = -V_VERTICAL_JUMP := by
  refine ⟨?_, rfl, rfl⟩
  simp only [processGameEvents]
  split_ifs with h1 h2 <;> simp_all [processGameEvents, mode_change, Boot.climb_event]

/-- A paused state in INIT phase whose per-phase tick counter has reached
the INIT timeout. -/
def pausedInitState : GameState :=
  { baseState with game_paused := true, game_ticks_in_phase := 60 }

/-- C2 (counterexample): a tick processed while paused can still change the
game state: in INIT phase with 60 ticks elapsed, the INIT timeout check runs
even while paused and switches the phase to NORMAL. -/
theorem paused_tick_changes_phase :
    pausedInitState.game_paused = true ∧
    pausedInitState.game_phase = GamePhase.INIT ∧
    (tick_game dzero dzero [] false false pausedInitState).game_phase =
      GamePhase.NORMAL := by
  refine ⟨rfl, rfl, ?_⟩
  rw [tick_game_paused dzero dzero false false pausedInitState rfl, applyHeldClimb_false,
    tickScoreAndPhase_phase]
  norm_num [floatScore, first_pillars_offset, pillars_offset, Boot.WIDTH, Pillars.WIDTH,
    Pillars.SPACING, game_level_pillar_count, pausedInitState, baseState]

/-- C2 (amended): a paused tick with no input events, no climb key held, and
the last-scored value already up to date leaves the actor, the pillars, the
scroll offset, the lives, the score and the per-level tick counter
unchanged; the phase (and with it the per-phase counter) may still change,
because the progress- and counter-driven transition checks run even while
paused. -/
theorem paused_tick_invariance (ds dj : ℕ → ℕ) (pc : Bool) (s : GameState)
    (hpause : s.game_paused = true)
    (hstable : levelScoreOf s ≤ s.game_last_score_value) :
    (tick_game ds dj [] false pc s).game_boot = s.game_boot ∧
    (tick_game ds dj [] false pc s).game_pillars = s.game_pillars ∧
    (tick_game ds dj [] false pc s).game_total_offset = s.game_total_offset ∧
    (tick_game ds dj [] false pc s).game_lives = s.game_lives ∧
    (tick_game ds dj [] false pc s).game_score = s.game_score ∧
    (tick_game ds dj [] false pc s).game_ticks_in_level = s.game_ticks_in_level := by
  rw [tick_game_paused ds dj false pc s hpause, applyHeldClimb_false]
  obtain ⟨hboot, hpil, hoff, hlev, hliv, hpau⟩ := tickScoreAndPhase_proj s
  refine ⟨hboot, hpil, hoff, hliv, ?_, ?_⟩
  · rw [tickScoreAndPhase_score, if_neg (not_lt.mpr hstable)]
  · rw [tickScoreAndPhase_ticks_in_level, if_pos hpause]

/-- The base state with the game paused, used as the witness input for the
paused-tick invariance. -/
def pausedBaseState : GameState := { baseState with game_paused := true }

/-- C2 (witness): the paused-tick invariance applied at a concrete paused
state. -/
theorem paused_tick_invariance_witness :
    (pausedBaseState.game_paused = true ∧
      levelScoreOf pausedBaseState ≤ pausedBaseState.game_last_score_value) ∧
    ((tick_game dzero dzero [] false false pausedBaseState).game_boot =
        pausedBaseState.game_boot ∧
      (tick_game dzero dzero [] false false pausedBaseState).game_pillars =
        pausedBaseState.game_pillars ∧
      (tick_game dzero dzero [] false false pausedBaseState).game_total_offset =
        pausedBaseState.game_total_offset ∧
      (tick_game dzero dzero [] false false pausedBaseState).game_lives =
        pausedBaseState.game_lives ∧
      (tick_game dzero dzero [] false false pausedBaseState).game_score =
        pausedBaseState.game_score ∧
      (tick_game dzero dzero [] false false pausedBaseState).game_ticks_in_level =
        pausedBaseState.game_ticks_in_level) := by
  have hfs : floatScore pausedBaseState.game_total_offset = -1/9 := by
    norm_num [floatScore, first_pillars_offset, pillars_offset, Boot.WIDTH, Pillars.WIDTH,
      Pillars.SPACING, pausedBaseState, baseState]
  have hpy : pyInt (floatScore pausedBaseState.game_total_offset) = 0 := by
    rw [hfs]
    unfold pyInt
    rw [if_pos (by norm_num)]
    norm_num
  have hstable : levelScoreOf pausedBaseState ≤ pausedBaseState.game_last_score_value := by
    unfold levelScoreOf
    rw [hpy]
    norm_num [pausedBaseState, baseState, game_level_pillar_count]
  exact ⟨⟨rfl, hstable⟩,
    paused_tick_invariance dzero dzero false pausedBaseState rfl hstable⟩

/-- C6: an unpaused NORMAL-phase tick on which the collision oracle fires or
the updated actor breaches a boundary decrements the lives count by exactly
one; if the decremented count is zero the phase becomes GAME_OVER, and if it
is positive the phase becomes RESPAWN. -/
theorem normal_breach_life_transition (ds dj : ℕ → ℕ) (pc : Bool) (s : GameState)
    (hP : s.game_phase = GamePhase.NORMAL) (hpause : s.game_paused = false)
    (hbr : pc = true ∨ boundary_breach (physicsMove s).game_boot) :
    (tick_game ds dj [] false pc s).game_lives = s.game_lives - 1 ∧
    ((tick_game ds dj [] false pc s).game_lives = 0 →
      (tick_game ds dj [] false pc s).game_phase = GamePhase.GAME_OVER) ∧
    (0 < (tick_game ds dj [] false pc s).game_lives →
      (tick_game ds dj [] false pc s).game_phase = GamePhase.RESPAWN) := by
  rw [tick_game_unpaused ds dj pc s hpause, tickPhysics_normal_breach pc ds dj s hP hbr]
  have hred : (if ((game_handle_life (physicsMove s), true) : GameState × Bool).2 = true
      then (game_handle_life (physicsMove s), true).1
      else tickScoreAndPhase (game_handle_life (physicsMove s), true).1) =
      game_handle_life (physicsMove s) := rfl
  rw [hred, game_handle_life_eq]
  have hlv : (physicsMove s).game_lives = s.game_lives := rfl
  split_ifs with h
  · rw [hlv] at h
    refine ⟨by simp [hlv], fun _ => rfl, fun hpos => ?_⟩
    simp only [hlv] at hpos
    omega
  · rw [hlv] at h
    refine ⟨by simp [hlv], fun hzero => ?_, fun _ => rfl⟩
    simp only [hlv] at hzero
    omega

/-- A NORMAL-phase state at the level start, used as the witness input for
the life-loss transition. -/
def normalPlayState : GameState := { baseState with game_phase := GamePhase.NORMAL }

/-- C6 (witness): the life-loss transition applied at a concrete state with
3 lives and a pillar collision. -/
theorem normal_breach_life_transition_witness :
    (normalPlayState.game_phase = GamePhase.NORMAL ∧
      normalPlayState.game_paused = false ∧
      (true = true ∨ boundary_breach (physicsMove normalPlayState).game_boot)) ∧
    ((tick_game dzero dzero [] false true normalPlayState).game_lives =
        normalPlayState.game_lives - 1 ∧
      ((tick_game dzero dzero [] false true normalPlayState).game_lives = 0 →
        (tick_game dzero dzero [] false true normalPlayState).game_phase =
          GamePhase.GAME_OVER) ∧
      (0 < (tick_game dzero dzero [] false true normalPlayState).game_lives →
        (tick_game dzero dzero [] false true normalPlayState).game_phase =
          GamePhase.RESPAWN)) :=
  ⟨⟨rfl, rfl, Or.inl rfl⟩,
    normal_breach_life_transition dzero dzero true normalPlayState rfl rfl (Or.inl rfl)⟩

/-- C7: on any unpaused NORMAL-phase tick of level 1 with no collision and
no boundary breach whose accumulated scroll offset has reached
`first_pillars_offset + 2 * pitch + 0.1 * pitch`, the progress value
`(offset - F)/P + 1` computed from the post-step offset meets the flyaway
threshold `pillar_count + 0.1`, and the tick ends in FLYAWAY phase. -/
theorem level_one_flyaway_scenario (ds dj : ℕ → ℕ) (s : GameState)
    (hP : s.game_phase = GamePhase.NORMAL) (hpause : s.game_paused = false)
    (hlvl : s.game_level = 1)
    (hb : ¬ boundary_breach (physicsMove s).game_boot)
    (hoff : first_pillars_offset + 2 * pillars_offset + (1/10) * pillars_offset ≤
      s.game_total_offset) :
    (game_level_pillar_count s : ℚ) + 1/10 ≤ floatScore (s.game_total_offset + 2) ∧
    (tick_game ds dj [] false false s).game_phase = GamePhase.FLYAWAY := by
  have hoff' : (2312/5 : ℚ) ≤ s.game_total_offset := by
    have h0 : first_pillars_offset + 2 * pillars_offset + (1/10) * pillars_offset =
        (2312/5 : ℚ) := by
      norm_num [first_pillars_offset, pillars_offset, Boot.WIDTH, Pillars.WIDTH,
        Pillars.SPACING]
    rw [h0] at hoff
    exact hoff
  have harith : (game_level_pillar_count s : ℚ) + 1/10 ≤
      floatScore (s.game_total_offset + 2) := by
    unfold floatScore game_level_pillar_count
    rw [hlvl]
    have hfp : first_pillars_offset = 160 := by
      norm_num [first_pillars_offset, Boot.WIDTH]
    have hpo : pillars_offset = 144 := by
      norm_num [pillars_offset, Pillars.WIDTH, Pillars.SPACING]
    rw [hfp, hpo]
    have hdiv : (s.game_total_offset + 2 - 160) / 144 =
        (s.game_total_offset - 158) * (1/144) := by ring
    rw [hdiv]
    push_cast
    linarith
  refine ⟨harith, ?_⟩
  rw [tick_game_unpaused ds dj false s hpause, tickPhysics_nobreach ds dj s hb]
  have hred : (if ((physicsMove s, false) : GameState × Bool).2 = true
      then (physicsMove s, false).1
      else tickScoreAndPhase (physicsMove s, false).1) =
      tickScoreAndPhase (physicsMove s) := rfl
  rw [hred, tickScoreAndPhase_phase]
  have hoffm : (physicsMove s).game_total_offset = s.game_total_offset + 2 := by
    have h1 : (physicsMove s).game_total_offset = offsetStep s := rfl
    rw [h1, offsetStep_normal s hP]
  have hlvm : (physicsMove s).game_level = s.game_level := rfl
  rw [if_pos]
  rw [hoffm]
  show (game_level_pillar_count (physicsMove s) : ℚ) + 1/10 ≤
    floatScore (s.game_total_offset + 2)
  unfold game_level_pillar_count
  rw [hlvm]
  exact harith

/-- A level-1 NORMAL-phase state past the flyaway offset threshold with the
actor safely inside the play area, used as the witness input for the
level-1 flyaway scenario. -/
def flyawayReadyState : GameState :=
  { baseState with game_phase := GamePhase.NORMAL, game_total_offset := 463,
                   game_boot := ⟨128, 300, 0⟩ }

/-- C7 (witness): the level-1 flyaway scenario applied at a concrete state
with offset 463. -/
theorem level_one_flyaway_scenario_witness :
    (flyawayReadyState.game_phase = GamePhase.NORMAL ∧
      flyawayReadyState.game_paused = false ∧
      flyawayReadyState.game_level = 1 ∧
      ¬ boundary_breach (physicsMove flyawayReadyState).game_boot ∧
      first_pillars_offset + 2 * pillars_offset + (1/10) * pillars_offset ≤
        flyawayReadyState.game_total_offset) ∧
    ((game_level_pillar_count flyawayReadyState : ℚ) + 1/10 ≤
        floatScore (flyawayReadyState.game_total_offset + 2) ∧
      (tick_game dzero dzero [] false false flyawayReadyState).game_phase =
        GamePhase.FLYAWAY) := by
  have hy : (physicsMove flyawayReadyState).game_boot.y = 300 := by
    have h1 : (physicsMove flyawayReadyState).game_boot =
        flyawayReadyState.game_boot.update 1 flyawayReadyState.game_phase := rfl
    rw [h1]
    rw [show flyawayReadyState.game_phase = GamePhase.NORMAL from rfl, Boot.update_normal]
    norm_num [flyawayReadyState, baseState]
  have hb : ¬ boundary_breach (physicsMove flyawayReadyState).game_boot := by
    unfold boundary_breach
    rw [hy]
    norm_num [Boot.HEIGHT]
  have hoff : first_pillars_offset + 2 * pillars_offset + (1/10) * pillars_offset ≤
      flyawayReadyState.game_total_offset := by
    norm_num [first_pillars_offset, pillars_offset, Boot.WIDTH, Pillars.WIDTH,
      Pillars.SPACING, flyawayReadyState, baseState]
  exact ⟨⟨rfl, rfl, rfl, hb, hoff⟩,
    level_one_flyaway_scenario dzero dzero flyawayReadyState rfl rfl rfl hb hoff⟩

/-- A FLYAWAY-phase state with a non-zero last-scored value, used to show the
new-level handler does not reset that value. -/
def flyawayEndState : GameState :=
  { baseState with game_phase := GamePhase.FLYAWAY, game_last_score_value := 2,
                   game_boot := ⟨48, 300, 0⟩ }

/-- C4 (counterexample): a FLYAWAY-phase collision starts a new level (phase
INIT, level incremented), but the last-scored obstacle index is NOT reset to
zero: it keeps its previous value 2 after the tick. -/
theorem new_level_keeps_last_score_value :
    flyawayEndState.game_phase = GamePhase.FLYAWAY ∧
    (tick_game dzero dzero [] false true flyawayEndState).game_phase =
      GamePhase.INIT ∧
    (tick_game dzero dzero [] false true flyawayEndState).game_level =
      flyawayEndState.game_level + 1 ∧
    (tick_game dzero dzero [] false true flyawayEndState).game_last_score_value = 2 ∧
    ((2 : ℤ) ≠ 0) := by
  have htick : tick_game dzero dzero [] false true flyawayEndState =
      game_handle_new_level dzero dzero (physicsMove flyawayEndState) := by
    rw [tick_game_unpaused dzero dzero true flyawayEndState rfl,
      tickPhysics_flyaway_breach true dzero dzero flyawayEndState rfl (Or.inl rfl)]
    rfl
  rw [htick, game_handle_new_level_eq]
  exact ⟨rfl, rfl, rfl, rfl, by decide⟩

/-- C4 (amended): on an unpaused FLYAWAY-phase tick with a collision or
boundary breach, a new level begins: the level number is incremented, the
pillar sequence is regenerated from scratch with `1 + new_level` pillars,
the scroll offset and the per-level tick counter are reset to zero, the
actor is replaced by a fresh default one, and the phase is reset to INIT
with its counter zeroed; the last-scored obstacle index, however, is left at
its previous value rather than being reset. -/
theorem flyaway_breach_starts_new_level (ds dj : ℕ → ℕ) (pc : Bool) (s : GameState)
    (hP : s.game_phase = GamePhase.FLYAWAY) (hpause : s.game_paused = false)
    (hbr : pc = true ∨ boundary_breach (physicsMove s).game_boot) :
    (tick_game ds dj [] false pc s).game_level = s.game_level + 1 ∧
    (tick_game ds dj [] false pc s).game_pillars =
      (List.range (1 + (s.game_level + 1))).map (fun i => Pillars.init i (ds i) (dj i)) ∧
    (tick_game ds dj [] false pc s).game_pillars.length =
      1 + (tick_game ds dj [] false pc s).game_level ∧
    (tick_game ds dj [] false pc s).game_total_offset = 0 ∧
    (tick_game ds dj [] false pc s).game_ticks_in_level = 0 ∧
    (tick_game ds dj [] false pc s).game_boot = Boot.init ∧
    (tick_game ds dj [] false pc s).game_phase = GamePhase.INIT ∧
    (tick_game ds dj [] false pc s).game_ticks_in_phase = 0 ∧
    (tick_game ds dj [] false pc s).game_last_score_value = s.game_last_score_value := by
  have htick : tick_game ds dj [] false pc s =
      game_handle_new_level ds dj (physicsMove s) := by
    rw [tick_game_unpaused ds dj pc s hpause,
      tickPhysics_flyaway_breach pc ds dj s hP hbr]
    rfl
  rw [htick, game_handle_new_level_eq]
  refine ⟨rfl, rfl, ?_, rfl, rfl, rfl, rfl, rfl, rfl⟩
  simp [List.length_map, List.length_range]

/-- A second FLYAWAY-phase state (level 2), used as the witness input for
the new-level transition. -/
def flyawayEndState2 : GameState :=
  { baseState with game_phase := GamePhase.FLYAWAY, game_level := 2,
                   game_boot := ⟨48, 300, 0⟩ }

/-- C4 (witness): the new-level transition applied at a concrete
FLYAWAY-phase level-2 state with a pillar collision. -/
theorem flyaway_breach_starts_new_level_witness :
    (flyawayEndState2.game_phase = GamePhase.FLYAWAY ∧
      flyawayEndState2.game_paused = false ∧
      (true = true ∨ boundary_breach (physicsMove flyawayEndState2).game_boot)) ∧
    ((tick_game dzero dzero [] false true flyawayEndState2).game_level =
        flyawayEndState2.game_level + 1 ∧
      (tick_game dzero dzero [] false true flyawayEndState2).game_pillars =
        (List.range (1 + (flyawayEndState2.game_level + 1))).map
          (fun i => Pillars.init i (dzero i) (dzero i)) ∧
      (tick_game dzero dzero [] false true flyawayEndState2).game_pillars.length =
        1 + (tick_game dzero dzero [] false true flyawayEndState2).game_level ∧
      (tick_game dzero dzero [] false true flyawayEndState2).game_total_offset = 0 ∧
      (tick_game dzero dzero [] false true flyawayEndState2).game_ticks_in_level = 0 ∧
      (tick_game dzero dzero [] false true flyawayEndState2).game_boot = Boot.init ∧
      (tick_game dzero dzero [] false true flyawayEndState2).game_phase =
        GamePhase.INIT ∧
      (tick_game dzero dzero [] false true flyawayEndState2).game_ticks_in_phase = 0 ∧
      (tick_game dzero dzero [] false true flyawayEndState2).game_last_score_value =
        flyawayEndState2.game_last_score_value) :=
  ⟨⟨rfl, rfl, Or.inl rfl⟩,
    flyaway_breach_starts_new_level dzero dzero true flyawayEndState2 rfl rfl (Or.inl rfl)⟩

end JettyBoot

namespace JettyBoot

theorem floatScore_mono {a b : ℚ} (h : a ≤ b) : floatScore a ≤ floatScore b := by
  unfold floatScore
  have hp : (0:ℚ) < pillars_offset := by
    norm_num [pillars_offset, Pillars.WIDTH, Pillars.SPACING]
  gcongr

theorem max_sub_step (a m c : ℚ) (hc : 0 ≤ c) :
    max (max a m - c) m = max (a - c) m := by
  rw [← max_sub_sub_right, max_assoc, max_eq_right (sub_le_self m hc)]

theorem tick_respawn_step (ds dj : ℕ → ℕ) (pc : Bool) (s : GameState)
    (hR : s.game_phase = GamePhase.RESPAWN) (hpause : s.game_paused = false)
    (hT : floatScore (max (s.game_total_offset - 8) 0) <
      (game_level_pillar_count s : ℚ) + 1/10) :
    (tick_game ds dj [] false pc s).game_total_offset =
      max (s.game_total_offset - 8) 0 ∧
    (tick_game ds dj [] false pc s).game_boot.x = max (s.game_boot.x - 2) 48 ∧
    (tick_game ds dj [] false pc s).game_boot.y = max (s.game_boot.y - 3) 320 ∧
    (tick_game ds dj [] false pc s).game_boot.v_vertical = s.game_boot.v_vertical ∧
    (tick_game ds dj [] false pc s).game_level = s.game_level ∧
    (tick_game ds dj [] false pc s).game_paused = false ∧
    (tick_game ds dj [] false pc s).game_phase =
      (if (tick_game ds dj [] false pc s).game_total_offset = 0 ∧
          (tick_game ds dj [] false pc s).game_boot.y = 320
       then GamePhase.INIT else GamePhase.RESPAWN) := by
  have hNe1 : s.game_phase ≠ GamePhase.NORMAL := by rw [hR]; simp
  have hNe2 : s.game_phase ≠ GamePhase.FLYAWAY := by rw [hR]; simp
  have htick : tick_game ds dj [] false pc s = tickScoreAndPhase (physicsMove s) := by
    rw [tick_game_unpaused ds dj pc s hpause, tickPhysics_other pc ds dj s hNe1 hNe2]
    rfl
  obtain ⟨pboot, ppil, poff, plev, pliv, ppau⟩ := tickScoreAndPhase_proj (physicsMove s)
  have hXboot : (physicsMove s).game_boot =
      { x := max (s.game_boot.x - 2) 48, y := max (s.game_boot.y - 3) 320,
        v_vertical := s.game_boot.v_vertical } := by
    have h1 : (physicsMove s).game_boot = s.game_boot.update 1 s.game_phase := rfl
    rw [h1, hR, Boot.update_respawn]
    norm_num
  have hXoff : (physicsMove s).game_total_offset = max (s.game_total_offset - 8) 0 := by
    have h1 : (physicsMove s).game_total_offset = offsetStep s := rfl
    rw [h1, offsetStep_respawn s hR]
  have hXphase : (physicsMove s).game_phase = GamePhase.RESPAWN := by
    have h1 : (physicsMove s).game_phase = s.game_phase := rfl
    rw [h1, hR]
  have hXpau : (physicsMove s).game_paused = false := by
    have h1 : (physicsMove s).game_paused = s.game_paused := rfl
    rw [h1, hpause]
  refine ⟨?_, ?_, ?_, ?_, ?_, ?_, ?_⟩
  · rw [htick, poff, hXoff]
  · rw [htick, pboot, hXboot]
  · rw [htick, pboot, hXboot]
  · rw [htick, pboot, hXboot]
  · rw [htick, plev]; rfl
  · rw [htick, ppau, hXpau]
  · rw [htick, poff, pboot, tickScoreAndPhase_phase]
    have hc1 : ¬ (floatScore (physicsMove s).game_total_offset ≥
        (game_level_pillar_count (physicsMove s) : ℚ) + 1/10) := by
      rw [hXoff]
      have hcount : game_level_pillar_count (physicsMove s) =
          game_level_pillar_count s := rfl
      rw [hcount]
      exact not_le.mpr hT
    rw [if_neg hc1]
    rw [if_neg (by rw [hXphase]; simp)]
    simp only [hXphase, Boot.default_y, true_and]

end JettyBoot

namespace JettyBoot

theorem tick_respawn_iter (ds dj : ℕ → ℕ) (s : GameState)
    (hR : s.game_phase = GamePhase.RESPAWN) (hpause : s.game_paused = false)
    (hT : floatScore (max (s.game_total_offset - 8) 0) <
      (game_level_pillar_count s : ℚ) + 1/10) :
    ∀ n : ℕ,
      ¬ (s.game_total_offset ≤ 8 * (n : ℚ) ∧ s.game_boot.y ≤ 320 + 3 * (n : ℚ)) →
      ((fun st => tick_game ds dj [] false false st)^[n] s).game_phase =
        GamePhase.RESPAWN ∧
      ((fun st => tick_game ds dj [] false false st)^[n] s).game_paused = false ∧
      ((fun st => tick_game ds dj [] false false st)^[n] s).game_level =
        s.game_level ∧
      ((fun st => tick_game ds dj [] false false st)^[n] s).game_boot.v_vertical =
        s.game_boot.v_vertical ∧
      (1 ≤ n →
        ((fun st => tick_game ds dj [] false false st)^[n] s).game_total_offset =
          max (s.game_total_offset - 8 * (n : ℚ)) 0 ∧
        ((fun st => tick_game ds dj [] false false st)^[n] s).game_boot.y =
          max (s.game_boot.y - 3 * (n : ℚ)) 320 ∧
        ((fun st => tick_game ds dj [] false false st)^[n] s).game_boot.x =
          max (s.game_boot.x - 2 * (n : ℚ)) 48) := by
  intro n
  induction n with
  | zero =>
      intro _
      exact ⟨hR, hpause, rfl, rfl, fun h => absurd h (by norm_num)⟩
  | succ n ih =>
      intro hguard
      have hguard_n : ¬ (s.game_total_offset ≤ 8 * (n : ℚ) ∧
          s.game_boot.y ≤ 320 + 3 * (n : ℚ)) := by
        rintro ⟨h1, h2⟩
        refine hguard ⟨le_trans h1 ?_, le_trans h2 ?_⟩ <;> push_cast <;> linarith
      obtain ⟨ph, pa, lv, vv, fm⟩ := ih hguard_n
      have hcount : game_level_pillar_count
          ((fun st => tick_game ds dj [] false false st)^[n] s) =
          game_level_pillar_count s := by
        unfold game_level_pillar_count
        rw [lv]
      have hTn : floatScore
          (max (((fun st => tick_game ds dj [] false false st)^[n] s).game_total_offset
            - 8) 0) <
          (game_level_pillar_count
            ((fun st => tick_game ds dj [] false false st)^[n] s) : ℚ) + 1/10 := by
        rw [hcount]
        rcases Nat.eq_zero_or_pos n with hn0 | hn1
        · subst hn0
          simpa using hT
        · obtain ⟨hoffn, _, _⟩ := fm hn1
          rw [hoffn, max_sub_step _ _ _ (by norm_num)]
          refine lt_of_le_of_lt ?_ hT
          apply floatScore_mono
          have hn0q : (0:ℚ) ≤ (n : ℚ) := by positivity
          exact max_le_max (by linarith) le_rfl
      have hstep := tick_respawn_step ds dj false
        ((fun st => tick_game ds dj [] false false st)^[n] s) ph pa hTn
      obtain ⟨st_off, st_x, st_y, st_v, st_lev, st_pau, st_ph⟩ := hstep
      have hiter : (fun st => tick_game ds dj [] false false st)^[n + 1] s =
          tick_game ds dj [] false false
            ((fun st => tick_game ds dj [] false false st)^[n] s) :=
        Function.iterate_succ_apply' _ n s
      have hoff1 : ((fun st => tick_game ds dj [] false false st)^[n + 1] s).game_total_offset = max (s.game_total_offset - 8 * ((n + 1 : ℕ) : ℚ)) 0 := by
        rw [hiter, st_off]
        rcases Nat.eq_zero_or_pos n with hn0 | hn1
        · subst hn0
          norm_num
        · obtain ⟨hoffn, _, _⟩ := fm hn1
          rw [hoffn, max_sub_step _ _ _ (by norm_num)]
          congr 1
          push_cast
          ring
      have hy1 : ((fun st => tick_game ds dj [] false false st)^[n + 1] s).game_boot.y = max (s.game_boot.y - 3 * ((n + 1 : ℕ) : ℚ)) 320 := by
        rw [hiter, st_y]
        rcases Nat.eq_zero_or_pos n with hn0 | hn1
        · subst hn0
          norm_num
        · obtain ⟨_, hyn, _⟩ := fm hn1
          rw [hyn, max_sub_step _ _ _ (by norm_num)]
          congr 1
          push_cast
          ring
      have hx1 : ((fun st => tick_game ds dj [] false false st)^[n + 1] s).game_boot.x = max (s.game_boot.x - 2 * ((n + 1 : ℕ) : ℚ)) 48 := by
        rw [hiter, st_x]
        rcases Nat.eq_zero_or_pos n with hn0 | hn1
        · subst hn0
          norm_num
        · obtain ⟨_, _, hxn⟩ := fm hn1
          rw [hxn, max_sub_step _ _ _ (by norm_num)]
          congr 1
          push_cast
          ring
      have hcond : ¬ (((fun st => tick_game ds dj [] false false st)^[n + 1] s).game_total_offset = 0 ∧ ((fun st => tick_game ds dj [] false false st)^[n + 1] s).game_boot.y = 320) := by
        rintro ⟨hz, hy⟩
        rw [hoff1] at hz
        rw [hy1] at hy
        refine hguard ⟨?_, ?_⟩
        · have := max_eq_right_iff.mp hz
          push_cast at this ⊢
          linarith
        · have := max_eq_right_iff.mp hy
          push_cast at this ⊢
          linarith
      refine ⟨?_, ?_, ?_, ?_, fun _ => ⟨hoff1, hy1, hx1⟩⟩
      · rw [hiter] at hcond ⊢
        rw [st_ph, if_neg (by rw [← hiter] at hcond ⊢; exact hcond)]
      · rw [hiter, st_pau]
      · rw [hiter, st_lev, lv]
      · rw [hiter, st_v, vv]

end JettyBoot

namespace JettyBoot

theorem tick_respawn_last (ds dj : ℕ → ℕ) (s : GameState)
    (hR : s.game_phase = GamePhase.RESPAWN) (hpause : s.game_paused = false)
    (hT : floatScore (max (s.game_total_offset - 8) 0) <
      (game_level_pillar_count s : ℚ) + 1/10) (n : ℕ)
    (hguard : 1 ≤ n →
      ¬ (s.game_total_offset ≤ 8 * (n : ℚ) ∧ s.game_boot.y ≤ 320 + 3 * (n : ℚ))) :
    ((fun st => tick_game ds dj [] false false st)^[n + 1] s).game_total_offset = max (s.game_total_offset - 8 * ((n + 1 : ℕ) : ℚ)) 0 ∧
    ((fun st => tick_game ds dj [] false false st)^[n + 1] s).game_boot.y = max (s.game_boot.y - 3 * ((n + 1 : ℕ) : ℚ)) 320 ∧
    ((fun st => tick_game ds dj [] false false st)^[n + 1] s).game_boot.x = max (s.game_boot.x - 2 * ((n + 1 : ℕ) : ℚ)) 48 ∧
    ((fun st => tick_game ds dj [] false false st)^[n + 1] s).game_phase =
      (if ((fun st => tick_game ds dj [] false false st)^[n + 1] s).game_total_offset = 0 ∧
          ((fun st => tick_game ds dj [] false false st)^[n + 1] s).game_boot.y = 320
       then GamePhase.INIT else GamePhase.RESPAWN) := by
  have hiter : (fun st => tick_game ds dj [] false false st)^[n + 1] s =
      tick_game ds dj [] false false
        ((fun st => tick_game ds dj [] false false st)^[n] s) :=
    Function.iterate_succ_apply' _ n s
  rcases Nat.eq_zero_or_pos n with h0 | h1
  · subst h0
    have hstep := tick_respawn_step ds dj false s hR hpause hT
    obtain ⟨st_off, st_x, st_y, _, _, _, st_ph⟩ := hstep
    have hz : (fun st => tick_game ds dj [] false false st)^[0 + 1] s =
        tick_game ds dj [] false false s := by
      rw [hiter, Function.iterate_zero_apply]
    rw [hz]
    refine ⟨?_, ?_, ?_, st_ph⟩
    · rw [st_off]; norm_num
    · rw [st_y]; norm_num
    · rw [st_x]; norm_num
  · obtain ⟨ph, pa, lv, vv, fm⟩ :=
      tick_respawn_iter ds dj s hR hpause hT n (hguard h1)
    obtain ⟨hoffn, hyn, hxn⟩ := fm h1
    have hcount : game_level_pillar_count
        ((fun st => tick_game ds dj [] false false st)^[n] s) =
        game_level_pillar_count s := by
      unfold game_level_pillar_count
      rw [lv]
    have hTn : floatScore
        (max (((fun st => tick_game ds dj [] false false st)^[n] s).game_total_offset
          - 8) 0) <
        (game_level_pillar_count
          ((fun st => tick_game ds dj [] false false st)^[n] s) : ℚ) + 1/10 := by
      rw [hcount, hoffn, max_sub_step _ _ _ (by norm_num)]
      refine lt_of_le_of_lt ?_ hT
      apply floatScore_mono
      have hn0q : (0:ℚ) ≤ (n : ℚ) := by positivity
      exact max_le_max (by linarith) le_rfl
    have hstep := tick_respawn_step ds dj false
      ((fun st => tick_game ds dj [] false false st)^[n] s) ph pa hTn
    obtain ⟨st_off, st_x, st_y, _, _, _, st_ph⟩ := hstep
    refine ⟨?_, ?_, ?_, by rw [hiter]; exact st_ph⟩
    · rw [hiter, st_off, hoffn, max_sub_step _ _ _ (by norm_num)]
      congr 1
      push_cast
      ring
    · rw [hiter, st_y, hyn, max_sub_step _ _ _ (by norm_num)]
      congr 1
      push_cast
      ring
    · rw [hiter, st_x, hxn, max_sub_step _ _ _ (by norm_num)]
      congr 1
      push_cast
      ring

end JettyBoot

namespace JettyBoot

/-- C8 (amended): from any unpaused RESPAWN-phase state whose unwinding
progress stays below the flyaway threshold, there is a tick count `N ≥ 1`
such that the phase remains RESPAWN for the first `N - 1` ticks; at every
tick up to `N` the scroll offset, the vertical position and the horizontal
position follow the exact clamped unwind formulas (so the offset never drops
below `0` and the positions never pass their defaults); after tick `N` the
offset is exactly `0`, the vertical position is exactly the default spawn
`y`, and the phase has switched to INIT.  The RESPAWN exit fires on offset
and vertical position alone: the horizontal position is only clamped toward
its default and need not have reached it. -/
theorem respawn_unwind_exact (ds dj : ℕ → ℕ) (s : GameState)
    (hR : s.game_phase = GamePhase.RESPAWN) (hpause : s.game_paused = false)
    (hT : floatScore (max (s.game_total_offset - 8) 0) <
      (game_level_pillar_count s : ℚ) + 1/10) :
    ∃ N : ℕ, 1 ≤ N ∧
      (∀ m : ℕ, m < N →
        ((fun st => tick_game ds dj [] false false st)^[m] s).game_phase =
          GamePhase.RESPAWN) ∧
      (∀ m : ℕ, 1 ≤ m → m ≤ N →
        ((fun st => tick_game ds dj [] false false st)^[m] s).game_total_offset = max (s.game_total_offset - 8 * (m : ℚ)) 0 ∧
        ((fun st => tick_game ds dj [] false false st)^[m] s).game_boot.y = max (s.game_boot.y - 3 * (m : ℚ)) 320 ∧
        ((fun st => tick_game ds dj [] false false st)^[m] s).game_boot.x = max (s.game_boot.x - 2 * (m : ℚ)) 48) ∧
      ((fun st => tick_game ds dj [] false false st)^[N] s).game_total_offset = 0 ∧
      ((fun st => tick_game ds dj [] false false st)^[N] s).game_boot.y =
        Boot.default_y ∧
      ((fun st => tick_game ds dj [] false false st)^[N] s).game_phase =
        GamePhase.INIT := by
  have hconv : ∀ k : ℕ,
      (s.game_total_offset ≤ 8 * (k : ℚ) ∧ s.game_boot.y ≤ 320 + 3 * (k : ℚ)) ↔
      max ⌈s.game_total_offset / 8⌉₊ ⌈((s.game_boot.y - 320) / 3)⌉₊ ≤ k := by
    intro k
    rw [max_le_iff, Nat.ceil_le, Nat.ceil_le,
      div_le_iff₀ (by norm_num : (0:ℚ) < 8), div_le_iff₀ (by norm_num : (0:ℚ) < 3)]
    constructor
    · rintro ⟨h1, h2⟩
      exact ⟨by linarith, by linarith⟩
    · rintro ⟨h1, h2⟩
      exact ⟨by linarith, by linarith⟩
  set D := max ⌈s.game_total_offset / 8⌉₊ ⌈((s.game_boot.y - 320) / 3)⌉₊ with hDdef
  obtain ⟨k, hk⟩ : ∃ k : ℕ, max D 1 = k + 1 := ⟨max D 1 - 1, by omega⟩
  have hguard_k : 1 ≤ k →
      ¬ (s.game_total_offset ≤ 8 * (k : ℚ) ∧ s.game_boot.y ≤ 320 + 3 * (k : ℚ)) := by
    intro h1k hc
    have hDk := (hconv k).mp hc
    have hmx : max D 1 ≤ k := max_le hDk h1k
    omega
  obtain ⟨hfo, hfy, hfx, hfp⟩ := tick_respawn_last ds dj s hR hpause hT k hguard_k
  have hDle : D ≤ k + 1 := by
    rw [← hk]
    exact le_max_left _ _
  have hcv := (hconv (k + 1)).mpr hDle
  have hoffN : ((fun st => tick_game ds dj [] false false st)^[k + 1] s).game_total_offset = 0 := by
    rw [hfo]
    exact max_eq_right_iff.mpr (by linarith [hcv.1])
  have hyN : ((fun st => tick_game ds dj [] false false st)^[k + 1] s).game_boot.y = 320 := by
    rw [hfy]
    exact max_eq_right_iff.mpr (by linarith [hcv.2])
  have hpN : ((fun st => tick_game ds dj [] false false st)^[k + 1] s).game_phase = GamePhase.INIT := by
    rw [hfp, if_pos ⟨hoffN, hyN⟩]
  refine ⟨max D 1, le_max_right _ _, ?_, ?_, by rw [hk]; exact hoffN,
    by rw [hk, hyN]; rfl, by rw [hk]; exact hpN⟩
  · intro m hm
    rcases Nat.eq_zero_or_pos m with h0 | h1
    · subst h0
      simpa using hR
    · have hmD : m < D := by
        rcases le_or_lt D 1 with hD1 | hD1
        · have hmx : max D 1 = 1 := max_eq_right hD1
          omega
        · have hmx : max D 1 = D := max_eq_left hD1.le
          omega
      have hg : ¬ (s.game_total_offset ≤ 8 * (m : ℚ) ∧
          s.game_boot.y ≤ 320 + 3 * (m : ℚ)) :=
        fun hc => absurd ((hconv m).mp hc) (by omega)
      exact (tick_respawn_iter ds dj s hR hpause hT m hg).1
  · intro m h1 h2
    obtain ⟨j, rfl⟩ : ∃ j : ℕ, m = j + 1 := ⟨m - 1, by omega⟩
    have hg : 1 ≤ j →
        ¬ (s.game_total_offset ≤ 8 * (j : ℚ) ∧ s.game_boot.y ≤ 320 + 3 * (j : ℚ)) := by
      intro h1j hc
      have hDj := (hconv j).mp hc
      have hmx : max D 1 ≤ j := max_le hDj h1j
      omega
    obtain ⟨ho, hy, hx, _⟩ := tick_respawn_last ds dj s hR hpause hT j hg
    exact ⟨ho, hy, hx⟩

end JettyBoot

namespace JettyBoot

/-- A RESPAWN-phase state whose offset and vertical position are already at
their defaults while the horizontal position is still at the play lane. -/
def respawnDoneState : GameState :=
  { baseState with game_phase := GamePhase.RESPAWN, game_boot := ⟨128, 320, 0⟩ }

/-- C8 (counterexample): from a RESPAWN state with offset 0 and the actor at
default height but horizontal position 128, the very next tick already
switches the phase to INIT while the horizontal position is 126, not the
default spawn 48 — the respawn exit does not wait for the horizontal
position to reach its default, so the actor does not return exactly to its
default spawn coordinates during RESPAWN. -/
theorem respawn_exits_before_default_x :
    respawnDoneState.game_phase = GamePhase.RESPAWN ∧
    respawnDoneState.game_boot.x = 128 ∧
    Boot.default_x = 48 ∧
    (tick_game dzero dzero [] false false respawnDoneState).game_phase =
      GamePhase.INIT ∧
    (tick_game dzero dzero [] false false respawnDoneState).game_boot.x = 126 ∧
    (126 : ℚ) ≠ Boot.default_x := by
  have hoffproj : respawnDoneState.game_total_offset = 0 := rfl
  have hm : max (respawnDoneState.game_total_offset - 8) 0 = 0 := by
    rw [hoffproj]
    exact max_eq_right (by norm_num)
  have hT : floatScore (max (respawnDoneState.game_total_offset - 8) 0) <
      (game_level_pillar_count respawnDoneState : ℚ) + 1/10 := by
    rw [hm]
    norm_num [floatScore, first_pillars_offset, pillars_offset, Boot.WIDTH,
      Pillars.WIDTH, Pillars.SPACING, game_level_pillar_count, respawnDoneState,
      baseState]
  obtain ⟨ho, hx, hy, _, _, _, hp⟩ :=
    tick_respawn_step dzero dzero false respawnDoneState rfl rfl hT
  have hoz : (tick_game dzero dzero [] false false respawnDoneState).game_total_offset = 0 := by
    rw [ho, hoffproj]
    exact max_eq_right (by norm_num)
  have hyz : (tick_game dzero dzero [] false false respawnDoneState).game_boot.y = 320 := by
    rw [hy]
    have : respawnDoneState.game_boot.y = 320 := rfl
    rw [this]
    exact max_eq_right (by norm_num)
  refine ⟨rfl, rfl, rfl, ?_, ?_, by norm_num [Boot.default_x]⟩
  · rw [hp, if_pos ⟨hoz, hyz⟩]
  · rw [hx]
    have : respawnDoneState.game_boot.x = 128 := rfl
    rw [this]
    rw [max_eq_left (by norm_num)]
    norm_num

/-- A mid-unwind RESPAWN state used as the witness input for the exact
unwind theorem. -/
def respawnMidState : GameState :=
  { baseState with game_phase := GamePhase.RESPAWN, game_total_offset := 16,
                   game_boot := ⟨52, 326, 0⟩ }

/-- C8 (witness): the exact-unwind theorem applied at a concrete mid-respawn
state. -/
theorem respawn_unwind_exact_witness :
    (respawnMidState.game_phase = GamePhase.RESPAWN ∧
      respawnMidState.game_paused = false ∧
      floatScore (max (respawnMidState.game_total_offset - 8) 0) <
        (game_level_pillar_count respawnMidState : ℚ) + 1/10) ∧
    (∃ N : ℕ, 1 ≤ N ∧
      (∀ m : ℕ, m < N →
        ((fun st => tick_game dzero dzero [] false false st)^[m] respawnMidState).game_phase =
          GamePhase.RESPAWN) ∧
      (∀ m : ℕ, 1 ≤ m → m ≤ N →
        ((fun st => tick_game dzero dzero [] false false st)^[m] respawnMidState).game_total_offset = max (respawnMidState.game_total_offset - 8 * (m : ℚ)) 0 ∧
        ((fun st => tick_game dzero dzero [] false false st)^[m] respawnMidState).game_boot.y = max (respawnMidState.game_boot.y - 3 * (m : ℚ)) 320 ∧
        ((fun st => tick_game dzero dzero [] false false st)^[m] respawnMidState).game_boot.x = max (respawnMidState.game_boot.x - 2 * (m : ℚ)) 48) ∧
      ((fun st => tick_game dzero dzero [] false false st)^[N] respawnMidState).game_total_offset = 0 ∧
      ((fun st => tick_game dzero dzero [] false false st)^[N] respawnMidState).game_boot.y =
        Boot.default_y ∧
      ((fun st => tick_game dzero dzero [] false false st)^[N] respawnMidState).game_phase =
        GamePhase.INIT) := by
  have hT : floatScore (max (respawnMidState.game_total_offset - 8) 0) <
      (game_level_pillar_count respawnMidState : ℚ) + 1/10 := by
    have h1 : respawnMidState.game_total_offset = 16 := rfl
    rw [h1, max_eq_left (by norm_num)]
    norm_num [floatScore, first_pillars_offset, pillars_offset, Boot.WIDTH,
      Pillars.WIDTH, Pillars.SPACING, game_level_pillar_count, respawnMidState,
      baseState]
  exact ⟨⟨rfl, rfl, hT⟩,
    respawn_unwind_exact dzero dzero respawnMidState rfl rfl hT⟩

end JettyBoot
